import Mathlib

/-!
Shallow embedding of the async-ai-task-runner repository: the Task data
model, the pydantic validation layer, the CRUD functions, the HTTP
create/list endpoints, the Celery worker job `run_ai_text_generation`
and the MCP tool layer, together with theorems settling the frozen
claims about them.
-/

namespace AITaskRunner

/-- Task status enumeration (`TaskStatus` in `app/schemas.py`). -/
inductive TaskStatus where
  | PENDING
  | PROCESSING
  | COMPLETED
  | FAILED
deriving DecidableEq, Repr

/-- Python exceptions arising on the embedded code paths. -/
inductive PyErr where
  | attributeError (obj attr : String)
  | typeError (msg : String)
deriving DecidableEq, Repr

/-- Message text of a Python exception (`str(e)`). -/
def pyErrStr : PyErr → String
  | .attributeError obj attr =>
      "\x27" ++ obj ++ "\x27 object has no attribute \x27" ++ attr ++ "\x27"
  | .typeError m => m

/-- One persisted row of the `tasks` table (`Task` in `app/models.py`).
Timestamps are modelled as abstract `Nat` instants. -/
structure TaskRow where
  id : Nat
  prompt : String
  model : Option String
  provider : Option String
  priority : Int
  status : TaskStatus
  result : Option String
  createdAt : Nat
deriving DecidableEq, Repr

/-- Declared fields of the pydantic `TaskCreate` schema (`TaskBase` in
`app/schemas.py`): `prompt`, `model`, `priority`.  The schema declares no
`provider` field, although `app/models.py` has a `provider` column and
`app/crud/task.py` reads `obj_in.provider`. -/
def taskCreateFields : List String := ["prompt", "model", "priority"]

/-- A validated `TaskCreate` value: `prompt` (1-1000 characters), `model`
(default "gpt-3.5-turbo") and `priority` (1-10, default 1). -/
structure TaskCreate where
  prompt : String
  model : String
  priority : Int
deriving DecidableEq, Repr

/-- JSON body of `POST /api/v1/tasks` before validation; `none` marks an
absent field. -/
structure CreateBody where
  prompt : String
  model : Option String
  priority : Option Int
deriving DecidableEq, Repr

/-- Pydantic validation of `TaskCreate` (`TaskBase` in `app/schemas.py`):
`min_length=1` and `max_length=1000` on `prompt`, `ge=1` and `le=10` on
`priority`, defaults `model="gpt-3.5-turbo"` and `priority=1`.  FastAPI
turns a validation failure into an HTTP 422 response before the route
handler runs. -/
def validateTaskCreate (b : CreateBody) : Except String TaskCreate :=
  if b.prompt.length < 1 then
    .error "String should have at least 1 character"
  else if 1000 < b.prompt.length then
    .error "String should have at most 1000 characters"
  else
    let pr := b.priority.getD 1
    if pr < 1 then
      .error "Input should be greater than or equal to 1"
    else if 10 < pr then
      .error "Input should be less than or equal to 10"
    else
      .ok { prompt := b.prompt, model := b.model.getD "gpt-3.5-turbo", priority := pr }

/-- Argument object received by `crud.create_task` as `obj_in`.  Python is
duck-typed, so the crud function is defined over any object; `providerAttr`
records whether the object carries a `provider` attribute, and with which
(nullable) value.  Accessing an attribute a pydantic model does not declare
raises `AttributeError`. -/
structure ObjIn where
  prompt : String
  model : Option String
  priority : Int
  providerAttr : Option (Option String)
deriving DecidableEq, Repr

/-- The `obj_in` object built from the `TaskCreate` schema: it carries a
`provider` attribute only if `provider` were among the schema's declared
fields, which it is not. -/
def TaskCreate.toObjIn (tc : TaskCreate) : ObjIn :=
  { prompt := tc.prompt
    model := some tc.model
    priority := tc.priority
    providerAttr := if "provider" ∈ taskCreateFields then some none else none }

/-- Python attribute access `obj_in.provider` as evaluated inside
`crud.create_task`: `AttributeError` when the object has no such attribute. -/
def ObjIn.getProvider (o : ObjIn) : Except PyErr (Option String) :=
  match o.providerAttr with
  | some v => .ok v
  | none => .error (.attributeError "TaskCreate" "provider")

/-- Fresh surrogate primary key assigned by the insert. -/
def freshId (db : List TaskRow) : Nat := db.length + 1

/-- Model of `create_task` in `app/crud/task.py`: it builds
`Task(prompt=obj_in.prompt, model=obj_in.model, provider=obj_in.provider,
priority=obj_in.priority, status=TaskStatus.PENDING)`, adds it and commits.
The keyword arguments are evaluated before the `Task` object exists, so an
`AttributeError` from `obj_in.provider` propagates before anything is added
to the session and no row is persisted. -/
def crud_create_task (db : List TaskRow) (now : Nat) (objIn : ObjIn) :
    Except PyErr (TaskRow × List TaskRow) :=
  match objIn.getProvider with
  | .error e => .error e
  | .ok prov =>
      let row : TaskRow :=
        { id := freshId db
          prompt := objIn.prompt
          model := objIn.model
          provider := prov
          priority := objIn.priority
          status := .PENDING
          result := none
          createdAt := now }
      .ok (row, db ++ [row])

/-- HTTP outcomes of the task endpoints (`app/api/v1/endpoints/tasks.py`). -/
inductive HttpResponse where
  | created (t : TaskRow)
  | unprocessableEntity (msg : String)
  | internalServerError (msg : String)
deriving DecidableEq, Repr

/-- Body of the `create_task` route handler after FastAPI validation.  The
outer `try` maps any exception raised by the crud call to an HTTP 500 with
detail `"Failed to create task: ..."`.  The inner `try` around
`run_ai_text_generation.delay(...)` catches every enqueue exception, prints
it and continues, so `enqueueRaises` influences neither the response nor
the database. -/
def create_task_handler (createOutcome : Except PyErr (TaskRow × List TaskRow))
    (db : List TaskRow) (enqueueRaises : Bool) : HttpResponse × List TaskRow :=
  match createOutcome with
  | .error e => (.internalServerError ("Failed to create task: " ++ pyErrStr e), db)
  | .ok (t, db2) =>
      match enqueueRaises with
      | true => (.created t, db2)
      | false => (.created t, db2)

/-- Model of `POST /api/v1/tasks`: FastAPI validates the body against the
`TaskCreate` schema (422 on failure, handler not entered), then the handler
runs with the object built from the schema. -/
def create_task_endpoint (db : List TaskRow) (now : Nat) (body : CreateBody)
    (enqueueRaises : Bool) : HttpResponse × List TaskRow :=
  match validateTaskCreate body with
  | .error msg => (.unprocessableEntity msg, db)
  | .ok tc => create_task_handler (crud_create_task db now tc.toObjIn) db enqueueRaises

/-- Descending `created_at` order used by the list query. -/
def createdDesc (a b : TaskRow) : Prop := b.createdAt ≤ a.createdAt

instance : DecidableRel createdDesc := fun a b => Nat.decLe b.createdAt a.createdAt

instance : IsTotal TaskRow createdDesc :=
  ⟨fun a b => (Nat.le_total b.createdAt a.createdAt).imp (fun h => h) (fun h => h)⟩

instance : IsTrans TaskRow createdDesc :=
  ⟨fun _ _ _ hab hbc => Nat.le_trans hbc hab⟩

/-- Model of `get_tasks` in `app/crud/task.py`, i.e.
`select(Task).offset(skip).limit(limit).order_by(Task.created_at.desc())`.
SQLAlchemy attaches `ORDER BY` to the whole select regardless of the method
chaining position, so the emitted SQL sorts all rows by `created_at DESC`
and then applies `OFFSET skip LIMIT limit`. -/
def get_tasks (db : List TaskRow) (skip limit : Nat) : List TaskRow :=
  ((db.insertionSort createdDesc).drop skip).take limit

/-- Model of Python `str.lower()` (ASCII case mapping; the CJK keywords the
worker matches on are unaffected by case). -/
def pyLower (s : String) : String := String.mk (s.data.map Char.toLower)

/-- Substring occurrence over character lists, used to model Python
`needle in haystack`. -/
def listContains (needle : List Char) : List Char → Bool
  | [] => needle.isEmpty
  | c :: rest => needle.isPrefixOf (c :: rest) || listContains needle rest

/-- Model of the Python membership test `needle in haystack` on strings. -/
def pyIn (needle haystack : String) : Bool :=
  listContains needle.data haystack.data

/-- Reply of the weather branch of `_generate_fallback_result`
(`app/worker/tasks/ai_tasks.py`). -/
def weather_reply (prompt : String) : String :=
  "根据您的问题\x27" ++ prompt ++
    "\x27，AI分析：今天天气晴朗，气温25°C，适合外出活动。空气质量良好，紫外线指数中等。建议适当防晒，多补充水分。"

/-- Reply of the arithmetic sub-branch of the math branch. -/
def math_add_reply (prompt : String) : String :=
  "数学计算结果：针对\x27" ++ prompt ++
    "\x27，通过计算得出结果。这是一个基础的算术运算，答案正确。"

/-- Reply of the general math branch. -/
def math_reply (prompt : String) : String :=
  "AI数学助手回答：针对\x27" ++ prompt ++
    "\x27的数学问题，经过分析求解得出答案42。这是一个经过深度分析得出的精确答案。"

/-- Reply of the code branch (the rendered f-string, with the doubled
braces of the Python source rendered as literal braces). -/
def code_reply (prompt : String) : String :=
  "AI代码助手为您生成：\n\n```python\ndef process_ai_task(prompt: str) -> str:\n    \"\"\"\n    处理AI任务的函数\n    \"\"\"\n    # 根据您的需求\x27" ++
    prompt ++
    "\x27生成的代码\n    print(f\"Processing: {prompt}\")\n    result = f\"Processed: {prompt}\"\n    return result\n\n# 使用示例\nif __name__ == \"__main__\":\n    output = process_ai_task(\"" ++
    prompt ++
    "\")\n    print(output)\n```\n\n这段代码实现了根据您的需求\x27" ++
    prompt ++
    "\x27进行AI任务处理的功能。"

/-- Reply of the translation branch. -/
def translate_reply (prompt : String) : String :=
  "翻译结果：\x27" ++ prompt ++
    "\x27 的英文翻译是根据上下文生成的专业翻译，保持了原文的语义和语调。"

/-- Reply of the default branch. -/
def default_reply (prompt : String) : String :=
  "AI智能回复：关于\x27" ++ prompt ++
    "\x27，我的分析是这是一个很有趣的问题。基于最新的深度学习模型和自然语言处理技术，我建议从多个角度来考虑这个问题。首先，我们需要理解问题的核心；其次，可以采用系统性的方法来分析和解决。总体而言，这需要结合理论知识和实践经验来得出最佳答案。"

/-- Model of `_generate_fallback_result` in `app/worker/tasks/ai_tasks.py`:
canned text chosen by naive keyword matching on `prompt.lower()`.  The
keywords are the CJK words 天气 (weather), 计算/数学 (compute/math),
代码/编程 (code) or `python`, 翻译/英文 (translate/English); anything else
gets the generic default reply. -/
def generate_fallback_result (prompt : String) : String :=
  let pl := pyLower prompt
  if pyIn "天气" pl then
    weather_reply prompt
  else if pyIn "计算" pl || pyIn "数学" pl then
    if pyIn "+" pl || pyIn "加" pl then math_add_reply prompt
    else math_reply prompt
  else if pyIn "代码" pl || pyIn "python" pl || pyIn "编程" pl then
    code_reply prompt
  else if pyIn "翻译" pl || pyIn "英文" pl then
    translate_reply prompt
  else
    default_reply prompt

/-- Error text written when no AI provider is configured. -/
def noProviderMsg : String := "❌ 没有可用的AI服务，请配置API密钥"

/-- Text prepended by the worker's outer `except` clause
(`f"AI文本生成失败: {str(e)}"`). -/
def genFailPrefix : String := "AI文本生成失败: "

/-- Observable database and side-effect events emitted by one execution of
the worker job (the task id is fixed throughout one job, so it is left
implicit).  `updateStatus` is `update_task_status(task_id, s)`,
`updateResult` is `update_task_result(task_id, s, r)`, `providerCall` is
the call into `ai_service.generate_text`, and `retryCall c m` is
`self.retry(exc=e, countdown=c, max_retries=m)`. -/
inductive JobEvent where
  | updateStatus (s : TaskStatus)
  | updateResult (s : TaskStatus) (r : String)
  | providerCall
  | retryCall (countdown maxRetries : Nat)
deriving DecidableEq, Repr

/-- Environment of one worker job execution: the names of the configured
providers (`ai_service.providers`; `is_available()` is their non-emptiness)
and the behaviour of the external provider call, either returned text or a
raised error message. -/
structure JobEnv where
  providers : List String
  providerOutcome : Except String String
deriving Repr

/-- Event trace of `run_ai_text_generation` in
`app/worker/tasks/ai_tasks.py`.  The job first writes PROCESSING; if no
provider is configured it writes FAILED, raises, and the outer `except`
writes FAILED again (with the `AI文本生成失败: ` prefix) and raises
`self.retry(exc=e, countdown=60, max_retries=3)`; otherwise it calls the
provider, and on success writes the returned text as COMPLETED while on a
provider error the inner `except` substitutes
`_generate_fallback_result(prompt)` and still writes COMPLETED. -/
def run_ai_text_generation (prompt : String) (env : JobEnv) : List JobEvent :=
  .updateStatus .PROCESSING ::
    (if env.providers.isEmpty then
      [.updateResult .FAILED noProviderMsg,
       .updateResult .FAILED (genFailPrefix ++ noProviderMsg),
       .retryCall 60 3]
    else
      match env.providerOutcome with
      | .ok text => [.providerCall, .updateResult .COMPLETED text]
      | .error _ => [.providerCall, .updateResult .COMPLETED (generate_fallback_result prompt)])

/-- The status/result columns of the single task a job execution touches. -/
structure TaskRec where
  status : TaskStatus
  result : Option String
deriving DecidableEq, Repr

/-- Database effect of one worker event (`app/crud/task.py`):
`update_task_status_sync` writes the status; `update_task_result_sync`
writes the status and, only when the result string is truthy
(`if result:` in the source, so never for the empty string), the result.
When the row is missing both functions return `False` and write nothing. -/
def applyEvent : Option TaskRec → JobEvent → Option TaskRec
  | none, _ => none
  | some t, .updateStatus s => some { t with status := s }
  | some t, .updateResult s r =>
      some { status := s, result := if r = "" then t.result else some r }
  | some t, .providerCall => some t
  | some t, .retryCall _ _ => some t

/-- Final row state after one worker job execution. -/
def worker_run (prompt : String) (env : JobEnv) (st : Option TaskRec) : Option TaskRec :=
  (run_ai_text_generation prompt env).foldl applyEvent st

/-- One operation of the main flow on a task row: the crud insert of the
create endpoint, or one worker event. -/
inductive FlowOp where
  | createOp
  | jobOp (e : JobEvent)
deriving DecidableEq, Repr

/-- Effect of a main-flow operation: `crud.create_task` inserts the row
with status PENDING and a null result; worker operations act as
`applyEvent`. -/
def applyFlowOp : Option TaskRec → FlowOp → Option TaskRec
  | _, .createOp => some { status := .PENDING, result := none }
  | st, .jobOp e => applyEvent st e

/-- The operation sequence the main flow performs on one task: the crud
insert, then the events of one worker job execution. -/
def mainFlowOps (prompt : String) (env : JobEnv) : List FlowOp :=
  .createOp :: (run_ai_text_generation prompt env).map .jobOp

/-- All intermediate row states along a sequence of main-flow operations,
starting from an absent row. -/
def flowStates (ops : List FlowOp) : List (Option TaskRec) :=
  List.scanl applyFlowOp none ops

/-- The result/status invariant of the spec: `result` is null while the
status is PENDING or PROCESSING, and non-null in a terminal status.  An
absent row satisfies it vacuously. -/
def resultStatusInv : Option TaskRec → Bool
  | none => true
  | some t =>
      match t.status with
      | .PENDING => t.result.isNone
      | .PROCESSING => t.result.isNone
      | .COMPLETED => t.result.isSome
      | .FAILED => t.result.isSome

/-- MCP server settings used by the tools (`MCPServerSettings` in
`app/mcp/config.py`). -/
def mcp_max_task_prompt_length : Nat := 1000

/-- Upper priority bound of the MCP settings (`max_priority`). -/
def mcp_max_priority : Int := 10

/-- Allow-listed model names (`allowed_models`). -/
def mcp_allowed_models : List String :=
  ["deepseek-chat", "gpt-3.5-turbo", "gpt-4", "claude-3-sonnet"]

/-- Allow-listed provider names (`allowed_providers`). -/
def mcp_allowed_providers : List String := ["deepseek", "openai", "anthropic"]

/-- Default model of the MCP settings (`default_model`). -/
def mcp_default_model : String := "deepseek-chat"

/-- Default priority of the MCP settings (`default_priority`). -/
def mcp_default_priority : Int := 5

/-- Flat argument map passed to an MCP tool; `none` marks an absent key. -/
structure ToolArgs where
  prompt : Option String
  model : Option String
  provider : Option String
  priority : Option Int
  task_id : Option Int
  status : Option String
  limit : Option Nat
  offset : Option Int
deriving DecidableEq, Repr

/-- Model of Python `str.strip()`: whitespace removed from both ends. -/
def pyStrip (s : String) : String :=
  String.mk (((s.data.dropWhile Char.isWhitespace).reverse.dropWhile
    Char.isWhitespace).reverse)

/-- Model of `validate_task_params` in `app/mcp/config.py`: requires a
non-blank `prompt` of at most 1000 characters, an allow-listed `model` and
`provider` when given, and a `priority` in 1..10 when given. -/
def validate_task_params (p : ToolArgs) : Bool × Option String :=
  match p.prompt with
  | none => (false, some "Prompt is required")
  | some prompt =>
    if (pyStrip prompt).length = 0 then
      (false, some "Prompt must be a non-empty string")
    else if mcp_max_task_prompt_length < prompt.length then
      (false, some "Prompt too long (max 1000 characters)")
    else if (match p.model with
             | some m => !(mcp_allowed_models.contains m)
             | none => false) then
      (false, some "Model not allowed")
    else if (match p.provider with
             | some pr => !(mcp_allowed_providers.contains pr)
             | none => false) then
      (false, some "Provider not allowed")
    else if (match p.priority with
             | some pr => decide (pr < 1) || decide (mcp_max_priority < pr)
             | none => false) then
      (false, some "Priority must be between 1 and 10")
    else
      (true, none)

/-- Kinds of Python values relevant to `async with get_db_session()`:
`get_db_session` in `app/database.py` is an `async def` whose body returns
`AsyncSessionLocal()`, so calling it yields a coroutine object (nothing is
awaited by the tools); only a value whose type defines `__aenter__` and
`__aexit__`, such as an `AsyncSession`, is an async context manager. -/
inductive PyDbValue where
  | coroutine
  | asyncSessionCtx
deriving DecidableEq, Repr

/-- The value of the call expression `get_db_session()`: a coroutine. -/
def get_db_session : PyDbValue := .coroutine

/-- Whether the value's type implements the async context manager
protocol. -/
def supportsAsyncCtx : PyDbValue → Bool
  | .coroutine => false
  | .asyncSessionCtx => true

/-- Entering `async with v as db`: Python raises a `TypeError` when `v`
does not support the asynchronous context manager protocol. -/
def asyncWithEnter (v : PyDbValue) : Except PyErr Unit :=
  if supportsAsyncCtx v then .ok () else
    .error (.typeError
      "\x27coroutine\x27 object does not support the asynchronous context manager protocol")

/-- The `{success, error_code}` envelope returned by every MCP tool. -/
structure ToolResult where
  success : Bool
  error_code : Option String
deriving DecidableEq, Repr

/-- Whether the parameter list of `crud.get_tasks` accepts a `status`
keyword: its parameters are `(db, skip, limit)` only. -/
def crud_get_tasks_accepts_status : Bool := false

/-- Model of `crud.get_task`: first row whose id equals `task_id`. -/
def crud_get_task (db : List TaskRow) (tid : Int) : Option TaskRow :=
  db.find? (fun t => (t.id : Int) == tid)

/-- Model of `create_task_tool` in `app/mcp/tools/task_tools.py`: after
`validate_task_params` passes, the whole body sits in a `try` whose
`except` returns the CREATION_ERROR envelope; the first statement is
`async with get_db_session() as db`.  Were that reached, the body would
build `TaskCreate(..., provider=...)` (pydantic silently drops the
undeclared keyword) and call `task_crud.create_task`. -/
def create_task_tool (args : ToolArgs) (db : List TaskRow) (now : Nat) :
    ToolResult × List TaskRow :=
  match validate_task_params args with
  | (false, _) => ({ success := false, error_code := some "VALIDATION_ERROR" }, db)
  | (true, _) =>
    match asyncWithEnter get_db_session with
    | .error _ => ({ success := false, error_code := some "CREATION_ERROR" }, db)
    | .ok _ =>
        match crud_create_task db now
            { prompt := args.prompt.getD ""
              model := some (args.model.getD mcp_default_model)
              priority := args.priority.getD mcp_default_priority
              providerAttr := none } with
        | .error _ => ({ success := false, error_code := some "CREATION_ERROR" }, db)
        | .ok (_, db2) => ({ success := true, error_code := none }, db2)

/-- Model of `get_task_status_tool`: parameter checks, then
`async with get_db_session() as db`, with the QUERY_ERROR envelope from the
`except` clause. -/
def get_task_status_tool (args : ToolArgs) (db : List TaskRow) :
    ToolResult × List TaskRow :=
  match args.task_id with
  | none => ({ success := false, error_code := some "MISSING_PARAMETER" }, db)
  | some tid =>
    if tid ≤ 0 then ({ success := false, error_code := some "INVALID_PARAMETER" }, db)
    else
      match asyncWithEnter get_db_session with
      | .error _ => ({ success := false, error_code := some "QUERY_ERROR" }, db)
      | .ok _ =>
          match crud_get_task db tid with
          | none => ({ success := false, error_code := some "TASK_NOT_FOUND" }, db)
          | some _ => ({ success := true, error_code := none }, db)

/-- Body shared by `list_tasks_tool` after its status validation: the
`async with` enters first; were it reached, the call
`task_crud.get_tasks(db=db, skip=offset, limit=limit, status=status)`
would raise `TypeError` (caught by the same `except`), because
`crud.get_tasks` accepts no `status` keyword. -/
def list_tasks_body (db : List TaskRow) : ToolResult × List TaskRow :=
  match asyncWithEnter get_db_session with
  | .error _ => ({ success := false, error_code := some "QUERY_ERROR" }, db)
  | .ok _ =>
      if crud_get_tasks_accepts_status then
        ({ success := true, error_code := none }, db)
      else
        ({ success := false, error_code := some "QUERY_ERROR" }, db)

/-- Model of `list_tasks_tool`: `if status and status not in [...]` rejects
a truthy status outside the catalogue; everything else proceeds to the
body. -/
def list_tasks_tool (args : ToolArgs) (db : List TaskRow) :
    ToolResult × List TaskRow :=
  match args.status with
  | some s =>
      if s ≠ "" ∧ s ∉ ["PENDING", "PROCESSING", "COMPLETED", "FAILED"] then
        ({ success := false, error_code := some "INVALID_PARAMETER" }, db)
      else list_tasks_body db
  | none => list_tasks_body db

/-- Model of `get_task_result_tool`: parameter checks, then
`async with get_db_session() as db`, with the QUERY_ERROR envelope from
the `except` clause; were the body reached it would also require status
COMPLETED. -/
def get_task_result_tool (args : ToolArgs) (db : List TaskRow) :
    ToolResult × List TaskRow :=
  match args.task_id with
  | none => ({ success := false, error_code := some "MISSING_PARAMETER" }, db)
  | some tid =>
    if tid ≤ 0 then ({ success := false, error_code := some "INVALID_PARAMETER" }, db)
    else
      match asyncWithEnter get_db_session with
      | .error _ => ({ success := false, error_code := some "QUERY_ERROR" }, db)
      | .ok _ =>
          match crud_get_task db tid with
          | none => ({ success := false, error_code := some "TASK_NOT_FOUND" }, db)
          | some t =>
              if t.status = .COMPLETED then ({ success := true, error_code := none }, db)
              else ({ success := false, error_code := some "TASK_NOT_COMPLETED" }, db)

/-- A string with positive length is not the empty string. -/
lemma ne_empty_of_length_pos (a : String) (ha : 0 < a.length) : a ≠ "" := by
  intro h
  rw [h] at ha
  exact absurd ha (by decide)

/-- Appending on the right preserves positive length. -/
lemma length_pos_append (a b : String) (ha : 0 < a.length) : 0 < (a ++ b).length := by
  rw [String.length_append]
  omega

/-- Every branch of the fallback generator starts with a non-empty literal,
so the fallback text is never empty. -/
lemma generate_fallback_result_ne_empty (p : String) : generate_fallback_result p ≠ "" := by
  unfold generate_fallback_result weather_reply math_add_reply math_reply code_reply
    translate_reply default_reply
  dsimp only
  split_ifs <;>
    (apply ne_empty_of_length_pos
     repeat apply length_pos_append
     decide)

/-- C1: the claim says a valid `(prompt, priority)` create request yields
HTTP 201 with a persisted PENDING task.  On the code it does not: the
`TaskCreate` schema declares no `provider` field, so `obj_in.provider`
inside `crud.create_task` raises `AttributeError`, the endpoint's outer
`except` maps it to HTTP 500, and no row is persisted — shown here by
evaluating the endpoint at the valid request
`{"prompt": "Explain gravity", "priority": 5}` on an empty store. -/
theorem c1_create_task_raises_attribute_error :
    create_task_endpoint [] 0
        { prompt := "Explain gravity", model := none, priority := some 5 } false
      = (.internalServerError
          "Failed to create task: \x27TaskCreate\x27 object has no attribute \x27provider\x27",
         []) := by
  decide

/-- C2: when the database insert succeeds (an `obj_in` carrying a
`provider` attribute) and the enqueue raises, the handler still answers
201 with the created PENDING task, the enqueue failure is swallowed, and
the final store is exactly the post-insert store — the create path
triggers no further transition. -/
theorem c2_enqueue_failure_not_surfaced (db : List TaskRow) (now : Nat)
    (o : ObjIn) (v : Option String) (h : o.providerAttr = some v) :
    ∃ t, crud_create_task db now o = .ok (t, db ++ [t])
      ∧ t.status = .PENDING
      ∧ create_task_handler (crud_create_task db now o) db true = (.created t, db ++ [t]) := by
  refine ⟨{ id := freshId db, prompt := o.prompt, model := o.model, provider := v,
            priority := o.priority, status := .PENDING, result := none, createdAt := now },
          ?_, rfl, ?_⟩ <;>
    simp [crud_create_task, ObjIn.getProvider, h, create_task_handler]

/-- Witness for C2 at a concrete insert on the empty store. -/
theorem c2_enqueue_failure_not_surfaced_witness :
    (⟨"hi", none, 1, some none⟩ : ObjIn).providerAttr = some none
    ∧ ∃ t, crud_create_task [] 0 ⟨"hi", none, 1, some none⟩ = .ok (t, [] ++ [t])
        ∧ t.status = .PENDING
        ∧ create_task_handler (crud_create_task [] 0 ⟨"hi", none, 1, some none⟩) [] true
            = (.created t, [] ++ [t]) :=
  ⟨rfl, c2_enqueue_failure_not_surfaced [] 0 ⟨"hi", none, 1, some none⟩ none rfl⟩

/-- C7: for an empty or over-length prompt, or a priority outside 1..10,
the create endpoint answers 422 and the store is unchanged. -/
theorem c7_validation_failure_rejected (db : List TaskRow) (now : Nat)
    (body : CreateBody) (enq : Bool)
    (h : body.prompt.length = 0 ∨ 1000 < body.prompt.length
        ∨ ∃ pr, body.priority = some pr ∧ (pr < 1 ∨ 10 < pr)) :
    ∃ msg, create_task_endpoint db now body enq = (.unprocessableEntity msg, db) := by
  unfold create_task_endpoint validateTaskCreate
  rcases h with h | h | ⟨pr, hpr, hr⟩
  · rw [if_pos (by omega)]
    exact ⟨_, rfl⟩
  · rw [if_neg (by omega), if_pos h]
    exact ⟨_, rfl⟩
  · by_cases h1 : body.prompt.length < 1
    · rw [if_pos h1]
      exact ⟨_, rfl⟩
    · by_cases h2 : 1000 < body.prompt.length
      · rw [if_neg h1, if_pos h2]
        exact ⟨_, rfl⟩
      · rw [if_neg h1, if_neg h2]
        simp only [hpr, Option.getD_some]
        rcases hr with hr | hr
        · rw [if_pos hr]
          exact ⟨_, rfl⟩
        · rw [if_neg (by omega), if_pos hr]
          exact ⟨_, rfl⟩

/-- Witness for C7 at the empty prompt on the empty store. -/
theorem c7_validation_failure_rejected_witness :
    (({ prompt := "", model := none, priority := none } : CreateBody).prompt.length = 0
      ∨ 1000 < ({ prompt := "", model := none, priority := none } : CreateBody).prompt.length
      ∨ ∃ pr, ({ prompt := "", model := none, priority := none } : CreateBody).priority = some pr
          ∧ (pr < 1 ∨ 10 < pr))
    ∧ ∃ msg, create_task_endpoint [] 0 { prompt := "", model := none, priority := none } false
        = (.unprocessableEntity msg, []) :=
  ⟨Or.inl rfl,
   c7_validation_failure_rejected [] 0 { prompt := "", model := none, priority := none } false
     (Or.inl rfl)⟩

/-- With at least one provider configured, the worker job always ends by
writing COMPLETED (the provider-error case is masked by the fallback). -/
lemma worker_run_completes (prompt : String) (env : JobEnv) (t1 : TaskRec)
    (hp : env.providers ≠ []) :
    ∃ res, worker_run prompt env (some t1) = some { status := .COMPLETED, result := res } := by
  obtain ⟨provs, outcome⟩ := env
  cases provs with
  | nil => exact absurd rfl hp
  | cons a l =>
      cases outcome with
      | ok text => exact ⟨_, rfl⟩
      | error m => exact ⟨_, rfl⟩

/-- C3: with at least one configured provider, a raising provider call makes
the worker write COMPLETED with the canned fallback text (never FAILED);
through this job, a final FAILED status occurs only when no provider is
configured at all. -/
theorem c3_provider_error_masked_as_completed (prompt msg : String) (env : JobEnv)
    (t0 : TaskRec) (hp : env.providers ≠ []) (he : env.providerOutcome = .error msg) :
    worker_run prompt env (some t0)
        = some { status := .COMPLETED, result := some (generate_fallback_result prompt) }
    ∧ ∀ (env2 : JobEnv) (t1 rec : TaskRec),
        worker_run prompt env2 (some t1) = some rec → rec.status = .FAILED →
          env2.providers = [] := by
  constructor
  · obtain ⟨provs, outcome⟩ := env
    cases provs with
    | nil => exact absurd rfl hp
    | cons a l =>
        simp only at he
        subst he
        simp [worker_run, run_ai_text_generation, applyEvent,
          generate_fallback_result_ne_empty prompt]
  · intro env2 t1 rec hrun hfail
    cases hprovs : env2.providers with
    | nil => rfl
    | cons a l =>
        exfalso
        obtain ⟨res, hres⟩ := worker_run_completes prompt env2 t1 (by rw [hprovs]; simp)
        rw [hres] at hrun
        obtain rfl := Option.some.inj hrun
        simp at hfail

/-- Witness for C3: one configured provider, a raising provider call. -/
theorem c3_provider_error_masked_as_completed_witness :
    ({ providers := ["openai"], providerOutcome := .error "boom" } : JobEnv).providers ≠ []
    ∧ (worker_run "hi" { providers := ["openai"], providerOutcome := .error "boom" }
          (some ⟨.PENDING, none⟩)
        = some { status := .COMPLETED, result := some (generate_fallback_result "hi") }
      ∧ ∀ (env2 : JobEnv) (t1 rec : TaskRec),
          worker_run "hi" env2 (some t1) = some rec → rec.status = .FAILED →
            env2.providers = []) :=
  ⟨by simp,
   c3_provider_error_masked_as_completed "hi" "boom"
     { providers := ["openai"], providerOutcome := .error "boom" }
     ⟨.PENDING, none⟩ (by simp) rfl⟩

/-- C4 counterexample: the claim says no execution of the final
`run_ai_text_generation` ever invokes a job-level retry, but the execution
with no configured provider does raise `self.retry(countdown=60,
max_retries=3)`. -/
theorem c4_retry_invoked_counterexample :
    JobEvent.retryCall 60 3 ∈
      run_ai_text_generation "hello" { providers := [], providerOutcome := .ok "" } := by
  decide

/-- C4 amended: the final provider-based job itself carries the job-level
retry, and it fires exactly in the executions where no provider is
configured. -/
theorem c4_retry_iff_no_provider (prompt : String) (env : JobEnv) :
    JobEvent.retryCall 60 3 ∈ run_ai_text_generation prompt env ↔ env.providers = [] := by
  obtain ⟨provs, outcome⟩ := env
  cases provs with
  | nil => simp [run_ai_text_generation]
  | cons a l =>
      cases outcome with
      | ok text => simp [run_ai_text_generation]
      | error m => simp [run_ai_text_generation]

/-- C8: every provider call in the worker trace is preceded by the
PROCESSING status write, and replaying the prefix of the trace before the
call shows the persisted status at call time is PROCESSING, not PENDING. -/
theorem c8_processing_written_before_provider_call (prompt : String) (env : JobEnv)
    (t0 : TaskRec) (i : Nat)
    (h : (run_ai_text_generation prompt env)[i]? = some .providerCall) :
    (∃ j, j < i ∧ (run_ai_text_generation prompt env)[j]? = some (.updateStatus .PROCESSING))
    ∧ ∃ rec, ((run_ai_text_generation prompt env).take i).foldl applyEvent (some t0)
          = some rec ∧ rec.status = .PROCESSING := by
  obtain ⟨provs, outcome⟩ := env
  cases provs with
  | nil =>
      exfalso
      rcases i with _ | _ | _ | _ | i <;> simp [run_ai_text_generation] at h
  | cons a l =>
      cases outcome with
      | ok text =>
          rcases i with _ | _ | _ | i
          · simp [run_ai_text_generation] at h
          · exact ⟨⟨0, by omega, rfl⟩, ⟨{ t0 with status := .PROCESSING }, rfl, rfl⟩⟩
          · simp [run_ai_text_generation] at h
          · simp [run_ai_text_generation] at h
      | error m =>
          rcases i with _ | _ | _ | i
          · simp [run_ai_text_generation] at h
          · exact ⟨⟨0, by omega, rfl⟩, ⟨{ t0 with status := .PROCESSING }, rfl, rfl⟩⟩
          · simp [run_ai_text_generation] at h
          · simp [run_ai_text_generation] at h

/-- Witness for C8 at a configured provider and the provider-call index. -/
theorem c8_processing_written_before_provider_call_witness :
    (run_ai_text_generation "p" { providers := ["deepseek"], providerOutcome := .ok "t" })[1]?
        = some JobEvent.providerCall
    ∧ ((∃ j, j < 1 ∧
          (run_ai_text_generation "p"
            { providers := ["deepseek"], providerOutcome := .ok "t" })[j]?
            = some (.updateStatus .PROCESSING))
        ∧ ∃ rec, ((run_ai_text_generation "p"
              { providers := ["deepseek"], providerOutcome := .ok "t" }).take 1).foldl
              applyEvent (some ⟨.PENDING, none⟩)
            = some rec ∧ rec.status = .PROCESSING) :=
  ⟨rfl,
   c8_processing_written_before_provider_call "p"
     { providers := ["deepseek"], providerOutcome := .ok "t" } ⟨.PENDING, none⟩ 1 rfl⟩

/-- C5 counterexample: along the main flow with a provider that returns the
empty string, `update_task_result_sync` skips the falsy result write, so
the task ends COMPLETED with a null result and the claimed invariant fails
at that state. -/
theorem c5_invariant_counterexample :
    ¬ (∀ st ∈ flowStates
          (mainFlowOps "hi" { providers := ["openai"], providerOutcome := .ok "" }),
        resultStatusInv st = true) := by
  decide

/-- C5 amended: along every main-flow operation sequence whose terminal
result strings are non-empty (in particular whenever the provider returns
non-empty text; the fallback and error texts are always non-empty), the
invariant holds at every intermediate state. -/
theorem c5_invariant_nonempty_results (prompt : String) (env : JobEnv)
    (h : ∀ text, env.providerOutcome = .ok text → text ≠ "") :
    ∀ st ∈ flowStates (mainFlowOps prompt env), resultStatusInv st = true := by
  obtain ⟨provs, outcome⟩ := env
  cases provs with
  | nil =>
      intro st hst
      have hl : flowStates (mainFlowOps prompt ⟨[], outcome⟩) =
          [none, some ⟨.PENDING, none⟩, some ⟨.PROCESSING, none⟩,
           some ⟨.FAILED, some noProviderMsg⟩,
           some ⟨.FAILED, some (genFailPrefix ++ noProviderMsg)⟩,
           some ⟨.FAILED, some (genFailPrefix ++ noProviderMsg)⟩] := rfl
      rw [hl] at hst
      fin_cases hst <;> decide
  | cons a l =>
      cases outcome with
      | ok text =>
          intro st hst
          have htext : text ≠ "" := h text rfl
          have hl : flowStates (mainFlowOps prompt ⟨a :: l, .ok text⟩) =
              [none, some ⟨.PENDING, none⟩, some ⟨.PROCESSING, none⟩,
               some ⟨.PROCESSING, none⟩, some ⟨.COMPLETED, some text⟩] := by
            simp [flowStates, mainFlowOps, run_ai_text_generation, List.scanl,
              applyFlowOp, applyEvent, htext]
          rw [hl] at hst
          fin_cases hst <;> simp [resultStatusInv]
      | error m =>
          intro st hst
          have hfb := generate_fallback_result_ne_empty prompt
          have hl : flowStates (mainFlowOps prompt ⟨a :: l, .error m⟩) =
              [none, some ⟨.PENDING, none⟩, some ⟨.PROCESSING, none⟩,
               some ⟨.PROCESSING, none⟩,
               some ⟨.COMPLETED, some (generate_fallback_result prompt)⟩] := by
            simp [flowStates, mainFlowOps, run_ai_text_generation, List.scanl,
              applyFlowOp, applyEvent, hfb]
          rw [hl] at hst
          fin_cases hst <;> simp [resultStatusInv]

/-- Witness for the amended C5 at a provider returning non-empty text. -/
theorem c5_invariant_nonempty_results_witness :
    (∀ text, (Except.ok "ans" : Except String String) = .ok text → text ≠ "")
    ∧ ∀ st ∈ flowStates
          (mainFlowOps "hi" { providers := ["openai"], providerOutcome := .ok "ans" }),
        resultStatusInv st = true :=
  ⟨fun _ ht => by cases ht; decide,
   c5_invariant_nonempty_results "hi"
     { providers := ["openai"], providerOutcome := .ok "ans" }
     (fun _ ht => by cases ht; decide)⟩

/-- C6: the list query returns rows sorted by `created_at` descending, and
for stores with pairwise-distinct ids the page `(0,k)` concatenated with
the page `(k,m)` has no duplicate ids and equals the page `(0,k+m)`. -/
theorem c6_list_pagination (db : List TaskRow) (k m : Nat)
    (h : (db.map TaskRow.id).Nodup) :
    get_tasks db 0 k ++ get_tasks db k m = get_tasks db 0 (k + m)
    ∧ ((get_tasks db 0 k ++ get_tasks db k m).map TaskRow.id).Nodup
    ∧ ∀ skip limit, (get_tasks db skip limit).Sorted createdDesc := by
  have hsortnd : ((db.insertionSort createdDesc).map TaskRow.id).Nodup :=
    ((List.perm_insertionSort createdDesc db).map TaskRow.id).nodup_iff.mpr h
  have hpage : get_tasks db 0 k ++ get_tasks db k m = get_tasks db 0 (k + m) := by
    unfold get_tasks
    simp only [List.drop_zero, List.take_add]
  refine ⟨hpage, ?_, ?_⟩
  · rw [hpage]
    unfold get_tasks
    rw [List.drop_zero]
    exact hsortnd.sublist ((List.take_sublist _ _).map TaskRow.id)
  · intro skip limit
    unfold get_tasks
    exact ((List.sorted_insertionSort createdDesc db).sublist
      (List.drop_sublist _ _)).sublist (List.take_sublist _ _)

/-- Witness for C6 on a two-row store with distinct ids. -/
theorem c6_list_pagination_witness :
    (([⟨1, "a", none, none, 1, .PENDING, none, 5⟩,
       ⟨2, "b", none, none, 1, .PENDING, none, 9⟩] : List TaskRow).map TaskRow.id).Nodup
    ∧ (get_tasks [⟨1, "a", none, none, 1, .PENDING, none, 5⟩,
          ⟨2, "b", none, none, 1, .PENDING, none, 9⟩] 0 1
        ++ get_tasks [⟨1, "a", none, none, 1, .PENDING, none, 5⟩,
          ⟨2, "b", none, none, 1, .PENDING, none, 9⟩] 1 1
        = get_tasks [⟨1, "a", none, none, 1, .PENDING, none, 5⟩,
          ⟨2, "b", none, none, 1, .PENDING, none, 9⟩] 0 (1 + 1)
      ∧ ((get_tasks [⟨1, "a", none, none, 1, .PENDING, none, 5⟩,
            ⟨2, "b", none, none, 1, .PENDING, none, 9⟩] 0 1
          ++ get_tasks [⟨1, "a", none, none, 1, .PENDING, none, 5⟩,
            ⟨2, "b", none, none, 1, .PENDING, none, 9⟩] 1 1).map TaskRow.id).Nodup
      ∧ ∀ skip limit,
          (get_tasks [⟨1, "a", none, none, 1, .PENDING, none, 5⟩,
            ⟨2, "b", none, none, 1, .PENDING, none, 9⟩] skip limit).Sorted createdDesc) :=
  ⟨by decide,
   c6_list_pagination
     [⟨1, "a", none, none, 1, .PENDING, none, 5⟩,
      ⟨2, "b", none, none, 1, .PENDING, none, 9⟩] 1 1 (by decide)⟩

/-- C9 counterexample: a prompt containing the English word "weather" does
not take the weather branch (the code matches the CJK keyword 天气), so the
generator returns the generic default reply instead of the weather
sentence. -/
theorem c9_weather_keyword_counterexample :
    pyIn "weather" (pyLower "What is the weather today") = true
    ∧ generate_fallback_result "What is the weather today"
        = default_reply "What is the weather today"
    ∧ generate_fallback_result "What is the weather today"
        ≠ weather_reply "What is the weather today" :=
  ⟨by decide, by decide, by decide⟩

/-- C9 amended: the keyword the weather branch matches is 天气; every
prompt whose lowercase form contains 天气 gets the fixed weather
sentence. -/
theorem c9_chinese_weather_keyword (p : String)
    (h : pyIn "天气" (pyLower p) = true) :
    generate_fallback_result p = weather_reply p := by
  unfold generate_fallback_result
  simp [h]

/-- Witness for the amended C9 on a prompt containing 天气. -/
theorem c9_chinese_weather_keyword_witness :
    pyIn "天气" (pyLower "今天天气怎么样") = true
    ∧ generate_fallback_result "今天天气怎么样" = weather_reply "今天天气怎么样" :=
  ⟨by decide, c9_chinese_weather_keyword "今天天气怎么样" (by decide)⟩

/-- C10: for every argument map passing the tools' parameter validation,
each of the four MCP tools hits the `async with get_db_session()` over a
coroutine, the raised `TypeError` is caught by the tool's `except`, a
`success: false` envelope is returned and the store is untouched. -/
theorem c10_mcp_tools_fail_closed (args : ToolArgs) (db : List TaskRow) (now : Nat) :
    ((validate_task_params args).fst = true →
      create_task_tool args db now
        = ({ success := false, error_code := some "CREATION_ERROR" }, db))
    ∧ (∀ tid, args.task_id = some tid → 0 < tid →
        get_task_status_tool args db
          = ({ success := false, error_code := some "QUERY_ERROR" }, db))
    ∧ ((∀ s, args.status = some s →
          s = "" ∨ s ∈ ["PENDING", "PROCESSING", "COMPLETED", "FAILED"]) →
        list_tasks_tool args db
          = ({ success := false, error_code := some "QUERY_ERROR" }, db))
    ∧ (∀ tid, args.task_id = some tid → 0 < tid →
        get_task_result_tool args db
          = ({ success := false, error_code := some "QUERY_ERROR" }, db)) := by
  refine ⟨?_, ?_, ?_, ?_⟩
  · intro hv
    unfold create_task_tool
    rcases hev : validate_task_params args with ⟨b, m2⟩
    rw [hev] at hv
    cases b with
    | false => simp at hv
    | true => rfl
  · intro tid htid hpos
    unfold get_task_status_tool
    rw [htid]
    dsimp only
    rw [if_neg (by omega)]
    rfl
  · intro hs
    unfold list_tasks_tool
    rcases hst : args.status with _ | s
    · rfl
    · rcases hs s hst with rfl | hmem
      · dsimp only
        rw [if_neg (by simp)]
        rfl
      · dsimp only
        rw [if_neg (by simp [hmem])]
        rfl
  · intro tid htid hpos
    unfold get_task_result_tool
    rw [htid]
    dsimp only
    rw [if_neg (by omega)]
    rfl

/-- Witness for C10 on a validated argument map and the empty store. -/
theorem c10_mcp_tools_fail_closed_witness :
    (validate_task_params ⟨some "hello", none, none, none, some 1, none, none, none⟩).fst = true
    ∧ create_task_tool ⟨some "hello", none, none, none, some 1, none, none, none⟩ [] 0
        = ({ success := false, error_code := some "CREATION_ERROR" }, [])
    ∧ get_task_status_tool ⟨some "hello", none, none, none, some 1, none, none, none⟩ []
        = ({ success := false, error_code := some "QUERY_ERROR" }, [])
    ∧ list_tasks_tool ⟨some "hello", none, none, none, some 1, none, none, none⟩ []
        = ({ success := false, error_code := some "QUERY_ERROR" }, [])
    ∧ get_task_result_tool ⟨some "hello", none, none, none, some 1, none, none, none⟩ []
        = ({ success := false, error_code := some "QUERY_ERROR" }, []) :=
  ⟨by decide,
   (c10_mcp_tools_fail_closed ⟨some "hello", none, none, none, some 1, none, none, none⟩ [] 0).1
     (by decide),
   (c10_mcp_tools_fail_closed ⟨some "hello", none, none, none, some 1, none, none, none⟩ [] 0).2.1
     1 rfl (by decide),
   (c10_mcp_tools_fail_closed
      ⟨some "hello", none, none, none, some 1, none, none, none⟩ [] 0).2.2.1
     (fun _ hs => nomatch hs),
   (c10_mcp_tools_fail_closed
      ⟨some "hello", none, none, none, some 1, none, none, none⟩ [] 0).2.2.2
     1 rfl (by decide)⟩

end AITaskRunner
